import Mathlib

/-
Verification of the documenso repository slice:
  apps/web/src/components/(teams)/tables/teams-data-table.tsx
  apps/web/src/app/(teams)/layout.tsx

The TypeScript code is shallowly embedded: database state is a record of
lists mirroring the Prisma tables touched by the code, the transaction body
is a function returning an Except together with the trace of steps it
performed, thrown JS errors are an inductive type, and the external mailer,
clock and random source are inputs supplied through a call environment.
-/

namespace Documenso

/-- Team member roles, mirroring the Prisma TeamMemberRole enum. -/
inductive TeamMemberRole
  | ADMIN
  | MANAGER
  | MEMBER
deriving DecidableEq

/-- Modelled from the spec: TEAM_MEMBER_ROLE_PERMISSIONS_MAP lives in
packages/lib/constants/teams.ts, which is not part of this slice. The spec
describes teams as groupings of users with role-based permissions and the
code consumes only the MANAGE_TEAM entry of the map; it is modelled as the
list of roles allowed to manage a team (admins and managers). -/
def MANAGE_TEAM_ROLES : List TeamMemberRole :=
  [TeamMemberRole.ADMIN, TeamMemberRole.MANAGER]

/-- A row of the TeamMember table, restricted to the fields the code reads. -/
structure TeamMember where
  userId : Int
  role : TeamMemberRole
deriving DecidableEq

/-- A row of the Team table, restricted to the fields the code reads. -/
structure Team where
  id : Int
  name : String
  url : String
  members : List TeamMember
deriving DecidableEq

/-- A row of the TeamEmail table. -/
structure TeamEmail where
  teamId : Int
  email : String
  name : String
deriving DecidableEq

/-- A row of the TeamEmailVerification table. Instants are epoch
milliseconds. -/
structure TeamEmailVerification where
  teamId : Int
  email : String
  name : String
  token : String
  expiresAt : Int
  createdAt : Int
deriving DecidableEq

/-- The database tables touched by addTeamEmailVerification. -/
structure Db where
  teams : List Team
  teamEmails : List TeamEmail
  teamEmailVerifications : List TeamEmailVerification
deriving DecidableEq

/-- Modelled from the spec: AppErrorCode comes from
packages/lib/errors/app-error.ts, which is not part of this slice; the
codes used by the code under verification are listed. -/
inductive AppErrorCode
  | INVALID_REQUEST
  | ALREADY_EXISTS
deriving DecidableEq

/-- The meta.target field of a Prisma known request error, as seen by
z.array(z.string()).safeParse: either a string array, some other value, or
absent. -/
inductive MetaTarget
  | strings (values : List String)
  | nonStringArray
  | absent
deriving DecidableEq

/-- Values thrown inside the transaction or surfaced to the caller. -/
inductive RuntimeError
  | appError (code : AppErrorCode) (message : String)
  | prismaKnownRequestError (code : String) (target : MetaTarget)
  | notFoundError
  | otherError (tag : String)
deriving DecidableEq

/-- The URL-safe alphabet of the nanoid library (64 characters). -/
def nanoidAlphabet : List Char :=
  "ABCDEFGHIJKLMNOPQRSTUVWXYZabcdefghijklmnopqrstuvwxyz0123456789_-".toList

/-- The nanoid library call nanoid(size): size characters drawn from the
64-character URL-safe alphabet; the external random source is an input. -/
def nanoid (rng : Nat → Nat) (size : Nat) : String :=
  String.mk ((List.range size).map fun i =>
    nanoidAlphabet.getD (rng i % nanoidAlphabet.length) 'a')

/-- The record returned by generateTeamEmailVerificationToken. -/
structure VerificationToken where
  expiresAt : Int
  token : String
  createdAt : Int
deriving DecidableEq

/-- generateTeamEmailVerificationToken: expiresAt is DateTime.now() plus
10 minutes, token is nanoid(32), createdAt is new Date(). The two clock
reads of the source line are modelled as one instant now, in epoch
milliseconds. -/
def generateTeamEmailVerificationToken (now : Int) (rng : Nat → Nat) :
    VerificationToken :=
  { expiresAt := now + 10 * 60 * 1000
    token := nanoid rng 32
    createdAt := now }

/-- Modelled from the spec: WEBAPP_BASE_URL comes from
packages/lib/constants/app.ts, outside this slice; its value depends on
deployment environment and only its identity matters to the claims. -/
def WEBAPP_BASE_URL : String := "http://localhost:3000"

/-- Modelled from the spec: FROM_NAME comes from
packages/lib/constants/email.ts, outside this slice. -/
def FROM_NAME : String := "Documenso"

/-- Modelled from the spec: FROM_ADDRESS comes from
packages/lib/constants/email.ts, outside this slice. -/
def FROM_ADDRESS : String := "noreply@documenso.com"

/-- The props of the ConfirmTeamEmailTemplate React element built by
sendTeamEmailVerificationEmail. -/
structure ConfirmTeamEmailTemplate where
  assetBaseUrl : String
  baseUrl : String
  teamName : String
  teamUrl : String
  token : String
deriving DecidableEq

/-- The output of the external render function, kept symbolic: a rendered
body is determined by the template instance it was rendered from and the
plainText flag. -/
structure Rendered where
  template : ConfirmTeamEmailTemplate
  plainText : Bool
deriving DecidableEq

/-- The external render call from the email package: render(template) for
HTML, render(template, plainText) for text. -/
def render (template : ConfirmTeamEmailTemplate) (plainText : Bool) :
    Rendered :=
  { template := template, plainText := plainText }

/-- The from field passed to mailer.sendMail. -/
structure MailFrom where
  name : String
  address : String
deriving DecidableEq

/-- A mail handed to mailer.sendMail; recipient embeds the to field. -/
structure Mail where
  recipient : String
  mailFrom : MailFrom
  subject : String
  html : Rendered
  text : Rendered
deriving DecidableEq

/-- The JS expression a or-else b for an optional environment string:
the fallback is used when the variable is undefined or empty. -/
def jsOrDefault (value : Option String) (fallback : String) : String :=
  match value with
  | some s => if s = "" then fallback else s
  | none => fallback

/-- The external world supplied to one call: the clock, the random source
behind nanoid, the NEXT_PUBLIC_WEBAPP_URL environment variable, and the
outcomes of the two external operations that may reject (the
teamEmailVerification insert and the mailer). -/
structure CallEnv where
  now : Int
  rng : Nat → Nat
  envWebappUrl : Option String
  mailerError : Option RuntimeError
  createError : Option RuntimeError

/-- The data argument of addTeamEmailVerification. -/
structure TeamEmailData where
  email : String
  name : String
deriving DecidableEq

/-- The template built by sendTeamEmailVerificationEmail from its
arguments. -/
def builtTemplate (env : CallEnv) (token teamName teamUrl : String) :
    ConfirmTeamEmailTemplate :=
  { assetBaseUrl := jsOrDefault env.envWebappUrl "http://localhost:3000"
    baseUrl := WEBAPP_BASE_URL
    teamName := teamName
    teamUrl := teamUrl
    token := token }

/-- The single mail built and handed to mailer.sendMail by
sendTeamEmailVerificationEmail. -/
def builtMail (env : CallEnv) (email token teamName teamUrl : String) :
    Mail :=
  { recipient := email
    mailFrom := { name := FROM_NAME, address := FROM_ADDRESS }
    subject := "A request to use your email has been initiated by "
      ++ teamName ++ " on Documenso"
    html := render (builtTemplate env token teamName teamUrl) false
    text := render (builtTemplate env token teamName teamUrl) true }

/-- sendTeamEmailVerificationEmail: builds the template and the mail and
awaits one mailer.sendMail call; a rejecting mailer is modelled as sending
nothing and propagating its error. -/
def sendTeamEmailVerificationEmail (env : CallEnv)
    (email token teamName teamUrl : String) : Except RuntimeError Mail :=
  match env.mailerError with
  | some e => Except.error e
  | none => Except.ok (builtMail env email token teamName teamUrl)

/-- The membership condition of the findFirstOrThrow where clause: some
member of the team has the caller userId and a role in the MANAGE_TEAM
permission list. -/
def teamAuthorized (userId : Int) (team : Team) : Bool :=
  team.members.any fun m =>
    m.userId == userId && decide (m.role ∈ MANAGE_TEAM_ROLES)

/-- tx.team.findFirstOrThrow with the where clause of the source: first
team whose id is teamId and which has a qualifying member. -/
def findAuthorizedTeam (db : Db) (userId teamId : Int) : Option Team :=
  db.teams.find? fun t => t.id == teamId && teamAuthorized userId t

/-- The email relation included with the team: the TeamEmail row of the
given team, if any. -/
def teamEmailFor (db : Db) (teamId : Int) : Option TeamEmail :=
  db.teamEmails.find? fun te => te.teamId == teamId

/-- The emailVerification relation included with the team. -/
def teamEmailVerificationFor (db : Db) (teamId : Int) :
    Option TeamEmailVerification :=
  db.teamEmailVerifications.find? fun v => v.teamId == teamId

/-- tx.teamEmail.findFirst with where email = the requested address. -/
def findTeamEmailByAddress (db : Db) (email : String) : Option TeamEmail :=
  db.teamEmails.find? fun te => te.email == email

/-- The observable steps of the transaction body, in source order. -/
inductive Step
  | permissionCheck
  | uniquenessCheck
  | tokenMint
  | createVerification
  | sendEmail
deriving DecidableEq

/-- The full step sequence of a call that reaches the email send. -/
def fullStepOrder : List Step :=
  [Step.permissionCheck, Step.uniquenessCheck, Step.tokenMint,
   Step.createVerification, Step.sendEmail]

/-- Whether a step writes to the database. -/
def isWriteStep : Step → Bool
  | Step.createVerification => true
  | _ => false

/-- The TeamEmailVerification row created on the success path: the minted
token fields spread together with the request data and the team id. -/
def mintedRecord (env : CallEnv) (teamId : Int) (data : TeamEmailData) :
    TeamEmailVerification :=
  { teamId := teamId
    email := data.email
    name := data.name
    token := (generateTeamEmailVerificationToken env.now env.rng).token
    expiresAt := (generateTeamEmailVerificationToken env.now env.rng).expiresAt
    createdAt := (generateTeamEmailVerificationToken env.now env.rng).createdAt }

/-- The result of the prisma transaction callback: on success the updated
database and the mails sent, otherwise the thrown error; paired with the
trace of steps performed before returning. -/
structure TxData where
  db : Db
  mails : List Mail
deriving DecidableEq

/-- The body of the prisma transaction inside addTeamEmailVerification,
step by step in source order: team lookup with permission filter,
own-email and own-verification check, other-team email check, token mint,
record creation, confirmation email send. -/
def transactionBody (env : CallEnv) (db : Db) (userId teamId : Int)
    (data : TeamEmailData) : Except RuntimeError TxData × List Step :=
  match findAuthorizedTeam db userId teamId with
  | none => (Except.error RuntimeError.notFoundError, [Step.permissionCheck])
  | some team =>
    if (teamEmailFor db team.id).isSome
        || (teamEmailVerificationFor db team.id).isSome then
      (Except.error (RuntimeError.appError AppErrorCode.INVALID_REQUEST
          "Team already has an email or existing email verification."),
        [Step.permissionCheck, Step.uniquenessCheck])
    else
      match findTeamEmailByAddress db data.email with
      | some _ =>
        (Except.error (RuntimeError.appError AppErrorCode.ALREADY_EXISTS
            "Email already taken by another team."),
          [Step.permissionCheck, Step.uniquenessCheck])
      | none =>
        match env.createError with
        | some e =>
          (Except.error e,
            [Step.permissionCheck, Step.uniquenessCheck, Step.tokenMint,
             Step.createVerification])
        | none =>
          let db2 : Db :=
            { db with teamEmailVerifications :=
                db.teamEmailVerifications ++ [mintedRecord env teamId data] }
          match sendTeamEmailVerificationEmail env data.email
              (generateTeamEmailVerificationToken env.now env.rng).token
              team.name team.url with
          | Except.error e => (Except.error e, fullStepOrder)
          | Except.ok mail => (Except.ok ⟨db2, [mail]⟩, fullStepOrder)

/-- The catch block of addTeamEmailVerification: a Prisma known request
error with code P2002 whose meta.target parses as a string array containing
the string email is replaced by an ALREADY_EXISTS AppError; every other
error is rethrown unchanged. -/
def handleTransactionError : RuntimeError → RuntimeError
  | RuntimeError.prismaKnownRequestError code target =>
    match target with
    | MetaTarget.strings values =>
      if code == "P2002" && values.contains "email" then
        RuntimeError.appError AppErrorCode.ALREADY_EXISTS
          "Email already taken by another team."
      else RuntimeError.prismaKnownRequestError code target
    | _ => RuntimeError.prismaKnownRequestError code target
  | e => e

/-- What a caller of addTeamEmailVerification observes: the returned or
thrown value, the database after the call (the transaction rolls back on
error), and the mails sent during the call, plus the step trace. -/
structure CallOutcome where
  result : Except RuntimeError Unit
  db : Db
  mails : List Mail
  trace : List Step

/-- addTeamEmailVerification: the transaction body run under the prisma
transaction (roll back the database on error) with the catch block applied
to the escaping error. -/
def addTeamEmailVerification (env : CallEnv) (db : Db) (userId teamId : Int)
    (data : TeamEmailData) : CallOutcome :=
  match transactionBody env db userId teamId data with
  | (Except.ok txd, trace) =>
    { result := Except.ok (), db := txd.db, mails := txd.mails, trace := trace }
  | (Except.error e, trace) =>
    { result := Except.error (handleTransactionError e), db := db,
      mails := [], trace := trace }

/-- URL search params as an entry list; Object.fromEntries semantics let a
later entry for the same key overwrite an earlier one, so lookup takes the
last matching entry. -/
def objectEntryLookup (params : List (String × String)) (key : String) :
    Option String :=
  (params.reverse.find? fun p => p.1 == key).map Prod.snd

/-- The result of ZBaseTableSearchParamsSchema.parse. -/
structure ParsedTableSearchParams where
  query : Option String
  page : Option Nat
  perPage : Option Nat
deriving DecidableEq

/-- A zod coerced positive number field: the string coerced to a number of
at least 1, absent or non-conforming values falling back to undefined. -/
def parsePositiveNat (value : Option String) : Option Nat :=
  match value with
  | none => none
  | some s =>
    match s.toNat? with
    | some n => if 1 ≤ n then some n else none
    | none => none

/-- Modelled from the spec: ZBaseTableSearchParamsSchema lives in
packages/lib/types/search-params.ts, outside this slice. The spec describes
the table as fetching a page of teams given a search term and pagination
state; the schema is modelled as an optional query string and optional
positive page and perPage numbers parsed from the URL search params. -/
def ZBaseTableSearchParamsSchema_parse (params : List (String × String)) :
    ParsedTableSearchParams :=
  { query := objectEntryLookup params "query"
    page := parsePositiveNat (objectEntryLookup params "page")
    perPage := parsePositiveNat (objectEntryLookup params "perPage") }

/-- The input object of the trpc.team.findTeams query. -/
structure FindTeamsQueryInput where
  term : Option String
  page : Option Nat
  perPage : Option Nat
deriving DecidableEq

/-- The findTeams query input built by a render of TeamsDataTable: the
parsed search params passed through as term, page and perPage. -/
def teamsDataTableQueryInput (searchParams : List (String × String)) :
    FindTeamsQueryInput :=
  let parsed := ZBaseTableSearchParamsSchema_parse searchParams
  { term := parsed.query, page := parsed.page, perPage := parsed.perPage }

/-- Set one key of the URL search params to a value, replacing any
existing entries for that key. -/
def setSearchParam (params : List (String × String)) (key value : String) :
    List (String × String) :=
  (params.filter fun p => p.1 != key) ++ [(key, value)]

/-- Modelled from the spec: the useUpdateSearchParams hook lives in
packages/lib/client-only/hooks/use-update-search-params.ts, outside this
slice; it merges the given entries into the current URL search params. -/
def updateSearchParams (params : List (String × String))
    (updates : List (String × String)) : List (String × String) :=
  updates.foldl (fun acc kv => setSearchParam acc kv.1 kv.2) params

/-- The onPaginationChange handler of TeamsDataTable: update the page and
perPage URL search params. -/
def onPaginationChange (params : List (String × String))
    (page perPage : Nat) : List (String × String) :=
  updateSearchParams params
    [("page", toString page), ("perPage", toString perPage)]

/-- The user of an authenticated session. -/
structure SessionUser where
  id : Int
deriving DecidableEq

/-- A next-auth server session. -/
structure Session where
  user : SessionUser
deriving DecidableEq

/-- The externally observable effects of a render of the teams dashboard
layout, in program order. -/
inductive LayoutEffect
  | fetchServerSession
  | redirectTo (path : String)
  | fetchRequiredSession
  | fetchTeams (userId : Int)
  | renderDashboard
deriving DecidableEq

/-- AuthenticatedTeamsDashboardLayout: read the server session; with no
session, redirect to /signin (the framework redirect throws, so nothing
later runs); with a session, fetch the required session and the teams of
the session user in parallel and render the dashboard shell. -/
def AuthenticatedTeamsDashboardLayout (session : Option Session) :
    List LayoutEffect :=
  match session with
  | none => [LayoutEffect.fetchServerSession, LayoutEffect.redirectTo "/signin"]
  | some s =>
    [LayoutEffect.fetchServerSession, LayoutEffect.fetchRequiredSession,
     LayoutEffect.fetchTeams s.user.id, LayoutEffect.renderDashboard]

/-- With no authorized team, the call fails at the permission check and
leaves the world unchanged. -/
lemma run_noTeam (env : CallEnv) (db : Db) (userId teamId : Int)
    (data : TeamEmailData)
    (h : findAuthorizedTeam db userId teamId = none) :
    addTeamEmailVerification env db userId teamId data =
      ⟨Except.error RuntimeError.notFoundError, db, [],
        [Step.permissionCheck]⟩ := by
  simp [addTeamEmailVerification, transactionBody, h, handleTransactionError]

/-- With the team already owning an email or a pending verification, the
call fails at the uniqueness check with an INVALID_REQUEST AppError. -/
lemma run_hasExisting (env : CallEnv) (db : Db) (userId teamId : Int)
    (data : TeamEmailData) (team : Team)
    (hteam : findAuthorizedTeam db userId teamId = some team)
    (hex : ((teamEmailFor db team.id).isSome
        || (teamEmailVerificationFor db team.id).isSome) = true) :
    addTeamEmailVerification env db userId teamId data =
      ⟨Except.error (RuntimeError.appError AppErrorCode.INVALID_REQUEST
          "Team already has an email or existing email verification."),
        db, [], [Step.permissionCheck, Step.uniquenessCheck]⟩ := by
  simp [addTeamEmailVerification, transactionBody, hteam, hex,
    handleTransactionError]

/-- With the requested address already held as a team email, the call
fails at the uniqueness check with an ALREADY_EXISTS AppError. -/
lemma run_dupEmail (env : CallEnv) (db : Db) (userId teamId : Int)
    (data : TeamEmailData) (team : Team) (te : TeamEmail)
    (hteam : findAuthorizedTeam db userId teamId = some team)
    (hex : ((teamEmailFor db team.id).isSome
        || (teamEmailVerificationFor db team.id).isSome) = false)
    (hdup : findTeamEmailByAddress db data.email = some te) :
    addTeamEmailVerification env db userId teamId data =
      ⟨Except.error (RuntimeError.appError AppErrorCode.ALREADY_EXISTS
          "Email already taken by another team."),
        db, [], [Step.permissionCheck, Step.uniquenessCheck]⟩ := by
  simp [addTeamEmailVerification, transactionBody, hteam, hex, hdup,
    handleTransactionError]

/-- With a rejecting insert, the call fails after the create step, the
catch block is applied, and the database rolls back. -/
lemma run_createFails (env : CallEnv) (db : Db) (userId teamId : Int)
    (data : TeamEmailData) (team : Team) (e : RuntimeError)
    (hteam : findAuthorizedTeam db userId teamId = some team)
    (hex : ((teamEmailFor db team.id).isSome
        || (teamEmailVerificationFor db team.id).isSome) = false)
    (hdup : findTeamEmailByAddress db data.email = none)
    (hce : env.createError = some e) :
    addTeamEmailVerification env db userId teamId data =
      ⟨Except.error (handleTransactionError e), db, [],
        [Step.permissionCheck, Step.uniquenessCheck, Step.tokenMint,
         Step.createVerification]⟩ := by
  simp [addTeamEmailVerification, transactionBody, hteam, hex, hdup, hce]

/-- With a rejecting mailer, the call fails after the send step, the catch
block is applied, and the database rolls back. -/
lemma run_mailerFails (env : CallEnv) (db : Db) (userId teamId : Int)
    (data : TeamEmailData) (team : Team) (e : RuntimeError)
    (hteam : findAuthorizedTeam db userId teamId = some team)
    (hex : ((teamEmailFor db team.id).isSome
        || (teamEmailVerificationFor db team.id).isSome) = false)
    (hdup : findTeamEmailByAddress db data.email = none)
    (hce : env.createError = none)
    (hm : env.mailerError = some e) :
    addTeamEmailVerification env db userId teamId data =
      ⟨Except.error (handleTransactionError e), db, [], fullStepOrder⟩ := by
  simp [addTeamEmailVerification, transactionBody, hteam, hex, hdup, hce,
    sendTeamEmailVerificationEmail, hm]

/-- On the success path, the call appends exactly the minted record and
sends exactly the built confirmation mail. -/
lemma run_success (env : CallEnv) (db : Db) (userId teamId : Int)
    (data : TeamEmailData) (team : Team)
    (hteam : findAuthorizedTeam db userId teamId = some team)
    (hex : ((teamEmailFor db team.id).isSome
        || (teamEmailVerificationFor db team.id).isSome) = false)
    (hdup : findTeamEmailByAddress db data.email = none)
    (hce : env.createError = none)
    (hm : env.mailerError = none) :
    addTeamEmailVerification env db userId teamId data =
      ⟨Except.ok (),
        { db with teamEmailVerifications :=
            db.teamEmailVerifications ++ [mintedRecord env teamId data] },
        [builtMail env data.email
          (generateTeamEmailVerificationToken env.now env.rng).token
          team.name team.url],
        fullStepOrder⟩ := by
  simp [addTeamEmailVerification, transactionBody, hteam, hex, hdup, hce,
    sendTeamEmailVerificationEmail, hm]

/-- The team lookup fails exactly when no team with the requested id has a
member with the caller id and a managing role. -/
lemma findAuthorizedTeam_eq_none (db : Db) (userId teamId : Int)
    (h : ∀ t ∈ db.teams, t.id = teamId → teamAuthorized userId t = false) :
    findAuthorizedTeam db userId teamId = none := by
  unfold findAuthorizedTeam
  rw [List.find?_eq_none]
  intro t ht
  by_cases hid : t.id = teamId
  · simp [hid, h t ht hid]
  · simp [hid]

/-- nanoid produces exactly the requested number of characters. -/
lemma nanoid_length (rng : Nat → Nat) (size : Nat) :
    (nanoid rng size).length = size := by
  simp [nanoid, String.length]

/-- After onPaginationChange the page param holds the new page. -/
lemma onPaginationChange_lookup_page (params : List (String × String))
    (page perPage : Nat) :
    objectEntryLookup (onPaginationChange params page perPage) "page"
      = some (toString page) := by
  simp [onPaginationChange, updateSearchParams, setSearchParam,
    objectEntryLookup, List.filter_append, List.find?]

/-- After onPaginationChange the perPage param holds the new perPage. -/
lemma onPaginationChange_lookup_perPage (params : List (String × String))
    (page perPage : Nat) :
    objectEntryLookup (onPaginationChange params page perPage) "perPage"
      = some (toString perPage) := by
  simp [onPaginationChange, updateSearchParams, setSearchParam,
    objectEntryLookup, List.filter_append, List.find?]

/-- A database holding one team whose only member is an admin, with no
team emails and no verifications; used to evaluate the theorems on
concrete inputs. -/
def dbFixture : Db :=
  { teams := [{ id := 1, name := "Acme", url := "acme", members := [{ userId := 1, role := TeamMemberRole.ADMIN }] }]
    teamEmails := []
    teamEmailVerifications := [] }

/-- A call environment in which every external collaborator succeeds. -/
def envFixture : CallEnv :=
  { now := 0, rng := fun _ => 0, envWebappUrl := none,
    mailerError := none, createError := none }

/-- A call environment whose mailer rejects. -/
def envMailerDown : CallEnv :=
  { envFixture with mailerError := some (RuntimeError.otherError "smtp") }

/-- The request data used by the concrete evaluations. -/
def dataFixture : TeamEmailData :=
  { email := "mail@acme.test", name := "Acme Mail" }

/-- When the transaction body throws, the caller observes the catch block
applied to the thrown error, the database rolled back and no mail sent. -/
lemma addTeamEmailVerification_error (env : CallEnv) (db : Db)
    (userId teamId : Int) (data : TeamEmailData) (e : RuntimeError)
    (he : (transactionBody env db userId teamId data).1 = Except.error e) :
    addTeamEmailVerification env db userId teamId data =
      ⟨Except.error (handleTransactionError e), db, [],
        (transactionBody env db userId teamId data).2⟩ := by
  unfold addTeamEmailVerification
  cases hb : transactionBody env db userId teamId data with
  | mk r trace =>
    rw [hb] at he
    cases r with
    | ok txd => simp at he
    | error e2 =>
      simp at he
      subst he
      rfl

/-- C2: a call by a user who is not a member of the target team with a
role in the MANAGE_TEAM permission set throws out of the team lookup,
writes nothing to the database and sends no mail. -/
theorem claim2_unauthorized_call_fails (env : CallEnv) (db : Db)
    (userId teamId : Int) (data : TeamEmailData)
    (h : ∀ t ∈ db.teams, t.id = teamId → teamAuthorized userId t = false) :
    (addTeamEmailVerification env db userId teamId data).result
      = Except.error RuntimeError.notFoundError
    ∧ (addTeamEmailVerification env db userId teamId data).db = db
    ∧ (addTeamEmailVerification env db userId teamId data).mails = [] := by
  rw [run_noTeam env db userId teamId data
    (findAuthorizedTeam_eq_none db userId teamId h)]
  exact ⟨rfl, rfl, rfl⟩

/-- C2 witness: a caller with id 2 who is not a member of team 1. -/
theorem claim2_witness :
    (addTeamEmailVerification envFixture dbFixture 2 1 dataFixture).result
      = Except.error RuntimeError.notFoundError
    ∧ (addTeamEmailVerification envFixture dbFixture 2 1 dataFixture).db
      = dbFixture
    ∧ (addTeamEmailVerification envFixture dbFixture 2 1 dataFixture).mails
      = [] :=
  claim2_unauthorized_call_fails envFixture dbFixture 2 1 dataFixture
    (by decide)

/-- C3: for an authorized caller, an existing team email or pending
verification yields an INVALID_REQUEST AppError, and otherwise an address
already held as a team email yields an ALREADY_EXISTS AppError with the
message of the source; in both cases the database is unchanged and no mail
is sent. -/
theorem claim3_uniqueness_checks (env : CallEnv) (db : Db)
    (userId teamId : Int) (data : TeamEmailData) (team : Team)
    (hteam : findAuthorizedTeam db userId teamId = some team) :
    ((teamEmailFor db team.id).isSome = true
        ∨ (teamEmailVerificationFor db team.id).isSome = true →
      (addTeamEmailVerification env db userId teamId data).result
        = Except.error (RuntimeError.appError AppErrorCode.INVALID_REQUEST
            "Team already has an email or existing email verification.")
      ∧ (addTeamEmailVerification env db userId teamId data).db = db
      ∧ (addTeamEmailVerification env db userId teamId data).mails = [])
    ∧ (teamEmailFor db team.id = none →
       teamEmailVerificationFor db team.id = none →
       ∀ te ∈ db.teamEmails, te.email = data.email →
      (addTeamEmailVerification env db userId teamId data).result
        = Except.error (RuntimeError.appError AppErrorCode.ALREADY_EXISTS
            "Email already taken by another team.")
      ∧ (addTeamEmailVerification env db userId teamId data).db = db
      ∧ (addTeamEmailVerification env db userId teamId data).mails = []) := by
  constructor
  · intro hex
    have hb : ((teamEmailFor db team.id).isSome
        || (teamEmailVerificationFor db team.id).isSome) = true := by
      rcases hex with h | h <;> simp [h]
    rw [run_hasExisting env db userId teamId data team hteam hb]
    exact ⟨rfl, rfl, rfl⟩
  · intro h1 h2 te hmem hemail
    have hb : ((teamEmailFor db team.id).isSome
        || (teamEmailVerificationFor db team.id).isSome) = false := by
      simp [h1, h2]
    cases hdup : findTeamEmailByAddress db data.email with
    | none =>
      exfalso
      rw [findTeamEmailByAddress, List.find?_eq_none] at hdup
      exact hdup te hmem (by simp [hemail])
    | some te2 =>
      rw [run_dupEmail env db userId teamId data team te2 hteam hb hdup]
      exact ⟨rfl, rfl, rfl⟩

/-- A database in which team 1 already owns a team email. -/
def dbWithOwnEmail : Db :=
  { dbFixture with
      teamEmails := [{ teamId := 1, email := "owned@acme.test", name := "Owned" }] }

/-- C3 witness: with an existing team email the call is rejected with
INVALID_REQUEST and the database is untouched. -/
theorem claim3_witness :
    (addTeamEmailVerification envFixture dbWithOwnEmail 1 1 dataFixture).result
      = Except.error (RuntimeError.appError AppErrorCode.INVALID_REQUEST
          "Team already has an email or existing email verification.")
    ∧ (addTeamEmailVerification envFixture dbWithOwnEmail 1 1 dataFixture).db
      = dbWithOwnEmail
    ∧ (addTeamEmailVerification envFixture dbWithOwnEmail 1 1 dataFixture).mails
      = [] :=
  (claim3_uniqueness_checks envFixture dbWithOwnEmail 1 1 dataFixture
      { id := 1, name := "Acme", url := "acme",
        members := [{ userId := 1, role := TeamMemberRole.ADMIN }] }
      (by rfl)).1 (Or.inl (by rfl))

/-- C4: whenever any step inside the transaction throws, the caller
observes an error, the teamEmailVerification table keeps its old rows and
the whole database state is unchanged. -/
theorem claim4_rollback_on_error (env : CallEnv) (db : Db)
    (userId teamId : Int) (data : TeamEmailData) (e : RuntimeError)
    (he : (transactionBody env db userId teamId data).1 = Except.error e) :
    (addTeamEmailVerification env db userId teamId data).db = db
    ∧ (addTeamEmailVerification env db userId teamId data).db.teamEmailVerifications
      = db.teamEmailVerifications
    ∧ (addTeamEmailVerification env db userId teamId data).result
      = Except.error (handleTransactionError e) := by
  rw [addTeamEmailVerification_error env db userId teamId data e he]
  exact ⟨rfl, rfl, rfl⟩

/-- C4 witness: a rejecting mailer, reached after the record creation,
still leaves the database unchanged. -/
theorem claim4_witness :
    (addTeamEmailVerification envMailerDown dbFixture 1 1 dataFixture).db
      = dbFixture
    ∧ (addTeamEmailVerification envMailerDown dbFixture 1 1 dataFixture).db.teamEmailVerifications
      = dbFixture.teamEmailVerifications
    ∧ (addTeamEmailVerification envMailerDown dbFixture 1 1 dataFixture).result
      = Except.error (RuntimeError.otherError "smtp") :=
  claim4_rollback_on_error envMailerDown dbFixture 1 1 dataFixture
    (RuntimeError.otherError "smtp") (by rfl)

/-- C10: the catch block maps a Prisma known request error with code P2002
whose meta target is a string array containing email to an ALREADY_EXISTS
AppError, and rethrows every other error unchanged; the caller of
addTeamEmailVerification observes exactly the transformed error. -/
theorem claim10_catch_block (env : CallEnv) (db : Db) (userId teamId : Int)
    (data : TeamEmailData) :
    (∀ values : List String, values.contains "email" = true →
      handleTransactionError
          (RuntimeError.prismaKnownRequestError "P2002" (MetaTarget.strings values))
        = RuntimeError.appError AppErrorCode.ALREADY_EXISTS
            "Email already taken by another team.")
    ∧ (∀ (code : String) (values : List String),
        code ≠ "P2002" ∨ values.contains "email" = false →
      handleTransactionError
          (RuntimeError.prismaKnownRequestError code (MetaTarget.strings values))
        = RuntimeError.prismaKnownRequestError code (MetaTarget.strings values))
    ∧ (∀ code : String,
      handleTransactionError
          (RuntimeError.prismaKnownRequestError code MetaTarget.nonStringArray)
        = RuntimeError.prismaKnownRequestError code MetaTarget.nonStringArray)
    ∧ (∀ code : String,
      handleTransactionError
          (RuntimeError.prismaKnownRequestError code MetaTarget.absent)
        = RuntimeError.prismaKnownRequestError code MetaTarget.absent)
    ∧ (∀ (c : AppErrorCode) (m : String),
      handleTransactionError (RuntimeError.appError c m)
        = RuntimeError.appError c m)
    ∧ handleTransactionError RuntimeError.notFoundError
        = RuntimeError.notFoundError
    ∧ (∀ tag : String,
      handleTransactionError (RuntimeError.otherError tag)
        = RuntimeError.otherError tag)
    ∧ (∀ e : RuntimeError,
        (transactionBody env db userId teamId data).1 = Except.error e →
      (addTeamEmailVerification env db userId teamId data).result
        = Except.error (handleTransactionError e)) := by
  refine ⟨?_, ?_, fun _ => rfl, fun _ => rfl, fun _ _ => rfl, rfl,
    fun _ => rfl, ?_⟩
  · intro values h
    have hm : "email" ∈ values := by simpa using h
    simp [handleTransactionError, hm]
  · intro code values h
    rcases h with h | h
    · simp [handleTransactionError, h]
    · have hm : "email" ∉ values := by simpa using h
      simp [handleTransactionError, hm]
  · intro e he
    rw [addTeamEmailVerification_error env db userId teamId data e he]

/-- C10 witness: the catch block evaluated on concrete errors of each
shape. -/
theorem claim10_witness :
    handleTransactionError
        (RuntimeError.prismaKnownRequestError "P2002"
          (MetaTarget.strings ["email"]))
      = RuntimeError.appError AppErrorCode.ALREADY_EXISTS
          "Email already taken by another team."
    ∧ handleTransactionError
        (RuntimeError.prismaKnownRequestError "P2021"
          (MetaTarget.strings ["email"]))
      = RuntimeError.prismaKnownRequestError "P2021"
          (MetaTarget.strings ["email"])
    ∧ handleTransactionError (RuntimeError.otherError "boom")
      = RuntimeError.otherError "boom" :=
  ⟨(claim10_catch_block envFixture dbFixture 1 1 dataFixture).1 ["email"]
      (by decide),
    (claim10_catch_block envFixture dbFixture 1 1 dataFixture).2.1 "P2021"
      ["email"] (Or.inl (by decide)),
    (claim10_catch_block envFixture dbFixture 1 1 dataFixture).2.2.2.2.2.2.1
      "boom"⟩

/-- The create step is the only write step. -/
lemma isWriteStep_eq (s : Step) (h : isWriteStep s = true) :
    s = Step.createVerification := by
  cases s <;> simp [isWriteStep] at h ⊢

/-- C1: every call performs the transaction steps in source order -
permission check, uniqueness check, token mint, record creation, email
send - its step trace being a prefix of that order, the record creation is
the only database write, the teams and teamEmails tables are never
written, the teamEmailVerifications table gains at most the one new row,
and a successful call performed all five steps and sent one mail. -/
theorem claim1_transaction_shape (env : CallEnv) (db : Db)
    (userId teamId : Int) (data : TeamEmailData) :
    (addTeamEmailVerification env db userId teamId data).trace <+: fullStepOrder
    ∧ (∀ s ∈ (addTeamEmailVerification env db userId teamId data).trace,
        isWriteStep s = true → s = Step.createVerification)
    ∧ (addTeamEmailVerification env db userId teamId data).db.teams = db.teams
    ∧ (addTeamEmailVerification env db userId teamId data).db.teamEmails
      = db.teamEmails
    ∧ ((addTeamEmailVerification env db userId teamId data).db.teamEmailVerifications
        = db.teamEmailVerifications
      ∨ ∃ record,
        (addTeamEmailVerification env db userId teamId data).db.teamEmailVerifications
          = db.teamEmailVerifications ++ [record])
    ∧ ((addTeamEmailVerification env db userId teamId data).result
        = Except.ok () →
      (addTeamEmailVerification env db userId teamId data).trace = fullStepOrder
      ∧ (addTeamEmailVerification env db userId teamId data).mails.length = 1) := by
  cases hteam : findAuthorizedTeam db userId teamId with
  | none =>
    rw [run_noTeam env db userId teamId data hteam]
    exact ⟨⟨[Step.uniquenessCheck, Step.tokenMint, Step.createVerification,
        Step.sendEmail], rfl⟩, fun s _ h => isWriteStep_eq s h, rfl, rfl, Or.inl rfl,
      fun h => by simp at h⟩
  | some team =>
    cases hex : ((teamEmailFor db team.id).isSome
        || (teamEmailVerificationFor db team.id).isSome) with
    | true =>
      rw [run_hasExisting env db userId teamId data team hteam hex]
      exact ⟨⟨[Step.tokenMint, Step.createVerification, Step.sendEmail], rfl⟩,
        fun s _ h => isWriteStep_eq s h, rfl, rfl, Or.inl rfl, fun h => by simp at h⟩
    | false =>
      cases hdup : findTeamEmailByAddress db data.email with
      | some te =>
        rw [run_dupEmail env db userId teamId data team te hteam hex hdup]
        exact ⟨⟨[Step.tokenMint, Step.createVerification, Step.sendEmail], rfl⟩,
          fun s _ h => isWriteStep_eq s h, rfl, rfl, Or.inl rfl, fun h => by simp at h⟩
      | none =>
        cases hce : env.createError with
        | some e =>
          rw [run_createFails env db userId teamId data team e hteam hex hdup hce]
          exact ⟨⟨[Step.sendEmail], rfl⟩, fun s _ h => isWriteStep_eq s h, rfl, rfl, Or.inl rfl,
            fun h => by simp at h⟩
        | none =>
          cases hm : env.mailerError with
          | some e =>
            rw [run_mailerFails env db userId teamId data team e hteam hex hdup
              hce hm]
            exact ⟨⟨[], by simp⟩, fun s _ h => isWriteStep_eq s h, rfl, rfl, Or.inl rfl,
              fun h => by simp at h⟩
          | none =>
            rw [run_success env db userId teamId data team hteam hex hdup hce hm]
            exact ⟨⟨[], by simp⟩, fun s _ h => isWriteStep_eq s h, rfl, rfl,
              Or.inr ⟨mintedRecord env teamId data, rfl⟩,
              fun _ => ⟨rfl, rfl⟩⟩

/-- C1 witness: the shape evaluated on a concrete successful call. -/
theorem claim1_witness :
    (addTeamEmailVerification envFixture dbFixture 1 1 dataFixture).trace
      <+: fullStepOrder
    ∧ (∀ s ∈ (addTeamEmailVerification envFixture dbFixture 1 1 dataFixture).trace,
        isWriteStep s = true → s = Step.createVerification)
    ∧ (addTeamEmailVerification envFixture dbFixture 1 1 dataFixture).db.teams
      = dbFixture.teams
    ∧ (addTeamEmailVerification envFixture dbFixture 1 1 dataFixture).db.teamEmails
      = dbFixture.teamEmails
    ∧ ((addTeamEmailVerification envFixture dbFixture 1 1 dataFixture).db.teamEmailVerifications
        = dbFixture.teamEmailVerifications
      ∨ ∃ record,
        (addTeamEmailVerification envFixture dbFixture 1 1 dataFixture).db.teamEmailVerifications
          = dbFixture.teamEmailVerifications ++ [record])
    ∧ ((addTeamEmailVerification envFixture dbFixture 1 1 dataFixture).result
        = Except.ok () →
      (addTeamEmailVerification envFixture dbFixture 1 1 dataFixture).trace
        = fullStepOrder
      ∧ (addTeamEmailVerification envFixture dbFixture 1 1 dataFixture).mails.length
        = 1) :=
  claim1_transaction_shape envFixture dbFixture 1 1 dataFixture

/-- C5: the minted token expires exactly 10 minutes after its creation
instant and is a 32-character nanoid, and a successful call stores exactly
that token in the new verification row and renders it into the mail sent
to the claimed address. -/
theorem claim5_token_lifecycle (env : CallEnv) (db : Db)
    (userId teamId : Int) (data : TeamEmailData)
    (hok : (addTeamEmailVerification env db userId teamId data).result
      = Except.ok ()) :
    (∀ (now : Int) (rng : Nat → Nat),
      (generateTeamEmailVerificationToken now rng).expiresAt
        = (generateTeamEmailVerificationToken now rng).createdAt
          + 10 * 60 * 1000
      ∧ (generateTeamEmailVerificationToken now rng).token = nanoid rng 32
      ∧ (generateTeamEmailVerificationToken now rng).token.length = 32)
    ∧ ∃ record mail,
        (addTeamEmailVerification env db userId teamId data).db.teamEmailVerifications
          = db.teamEmailVerifications ++ [record]
        ∧ (addTeamEmailVerification env db userId teamId data).mails = [mail]
        ∧ record.token
          = (generateTeamEmailVerificationToken env.now env.rng).token
        ∧ record.email = data.email
        ∧ mail.recipient = data.email
        ∧ mail.html.template.token = record.token
        ∧ mail.text.template.token = record.token := by
  refine ⟨fun now rng => ⟨rfl, rfl, nanoid_length rng 32⟩, ?_⟩
  cases hteam : findAuthorizedTeam db userId teamId with
  | none =>
    rw [run_noTeam env db userId teamId data hteam] at hok
    simp at hok
  | some team =>
    cases hex : ((teamEmailFor db team.id).isSome
        || (teamEmailVerificationFor db team.id).isSome) with
    | true =>
      rw [run_hasExisting env db userId teamId data team hteam hex] at hok
      simp at hok
    | false =>
      cases hdup : findTeamEmailByAddress db data.email with
      | some te =>
        rw [run_dupEmail env db userId teamId data team te hteam hex hdup] at hok
        simp at hok
      | none =>
        cases hce : env.createError with
        | some e =>
          rw [run_createFails env db userId teamId data team e hteam hex hdup
            hce] at hok
          simp at hok
        | none =>
          cases hm : env.mailerError with
          | some e =>
            rw [run_mailerFails env db userId teamId data team e hteam hex hdup
              hce hm] at hok
            simp at hok
          | none =>
            rw [run_success env db userId teamId data team hteam hex hdup hce hm]
            exact ⟨mintedRecord env teamId data,
              builtMail env data.email
                (generateTeamEmailVerificationToken env.now env.rng).token
                team.name team.url,
              rfl, rfl, rfl, rfl, rfl, rfl, rfl⟩

/-- C5 witness: the stored and mailed token of a concrete successful
call. -/
theorem claim5_witness :
    ∃ record mail,
      (addTeamEmailVerification envFixture dbFixture 1 1 dataFixture).db.teamEmailVerifications
        = dbFixture.teamEmailVerifications ++ [record]
      ∧ (addTeamEmailVerification envFixture dbFixture 1 1 dataFixture).mails
        = [mail]
      ∧ record.token
        = (generateTeamEmailVerificationToken envFixture.now envFixture.rng).token
      ∧ record.email = dataFixture.email
      ∧ mail.recipient = dataFixture.email
      ∧ mail.html.template.token = record.token
      ∧ mail.text.template.token = record.token :=
  (claim5_token_lifecycle envFixture dbFixture 1 1 dataFixture (by rfl)).2

/-- C6: with a mailer that accepts, sendTeamEmailVerificationEmail sends
exactly one mail, addressed to the given email, from the configured
FROM_NAME and FROM_ADDRESS, with the team name in the subject, and whose
HTML and plain-text bodies are rendered from one ConfirmTeamEmailTemplate
instance carrying the token, team name, team url and base URLs. -/
theorem claim6_confirmation_mail (env : CallEnv)
    (email token teamName teamUrl : String)
    (hm : env.mailerError = none) :
    ∃ mail,
      sendTeamEmailVerificationEmail env email token teamName teamUrl
        = Except.ok mail
      ∧ mail.recipient = email
      ∧ mail.mailFrom.name = FROM_NAME
      ∧ mail.mailFrom.address = FROM_ADDRESS
      ∧ (∃ before after, mail.subject = before ++ teamName ++ after)
      ∧ ∃ t : ConfirmTeamEmailTemplate,
          mail.html = render t false
          ∧ mail.text = render t true
          ∧ t.token = token
          ∧ t.teamName = teamName
          ∧ t.teamUrl = teamUrl
          ∧ t.baseUrl = WEBAPP_BASE_URL
          ∧ t.assetBaseUrl
            = jsOrDefault env.envWebappUrl "http://localhost:3000" := by
  refine ⟨builtMail env email token teamName teamUrl, ?_, rfl, rfl, rfl,
    ⟨"A request to use your email has been initiated by ", " on Documenso",
      rfl⟩,
    builtTemplate env token teamName teamUrl, rfl, rfl, rfl, rfl, rfl, rfl,
    rfl⟩
  simp [sendTeamEmailVerificationEmail, hm]

/-- C6 witness: the confirmation mail of a concrete call. -/
theorem claim6_witness :
    ∃ mail,
      sendTeamEmailVerificationEmail envFixture "mail@acme.test" "tok"
          "Acme" "acme"
        = Except.ok mail
      ∧ mail.recipient = "mail@acme.test"
      ∧ mail.mailFrom.name = FROM_NAME
      ∧ mail.mailFrom.address = FROM_ADDRESS
      ∧ (∃ before after, mail.subject = before ++ "Acme" ++ after)
      ∧ ∃ t : ConfirmTeamEmailTemplate,
          mail.html = render t false
          ∧ mail.text = render t true
          ∧ t.token = "tok"
          ∧ t.teamName = "Acme"
          ∧ t.teamUrl = "acme"
          ∧ t.baseUrl = WEBAPP_BASE_URL
          ∧ t.assetBaseUrl
            = jsOrDefault envFixture.envWebappUrl "http://localhost:3000" :=
  claim6_confirmation_mail envFixture "mail@acme.test" "tok" "Acme" "acme"
    (by rfl)

/-- C7: the findTeams query input of a render is exactly the term, page
and perPage parsed from the URL search params by
ZBaseTableSearchParamsSchema, and a pagination change writes the new page
and perPage into the URL search params. -/
theorem claim7_query_input_and_pagination (params : List (String × String))
    (page perPage : Nat) :
    teamsDataTableQueryInput params =
      { term := (ZBaseTableSearchParamsSchema_parse params).query
        page := (ZBaseTableSearchParamsSchema_parse params).page
        perPage := (ZBaseTableSearchParamsSchema_parse params).perPage }
    ∧ objectEntryLookup (onPaginationChange params page perPage) "page"
      = some (toString page)
    ∧ objectEntryLookup (onPaginationChange params page perPage) "perPage"
      = some (toString perPage) :=
  ⟨rfl, onPaginationChange_lookup_page params page perPage,
    onPaginationChange_lookup_perPage params page perPage⟩

/-- C8 counterexample: the claim says a sort order is part of the query
state sent to the server; at the concrete input where the URL carries sort
parameters, the findTeams query input is identical to the one of a URL
with no parameters at all, and it consists of nothing but term, page and
perPage, so no interaction can change the server-side ordering through the
query state. -/
theorem claim8_counterexample :
    teamsDataTableQueryInput [("sort", "name"), ("sortDirection", "desc")]
      = teamsDataTableQueryInput []
    ∧ teamsDataTableQueryInput []
      = { term := none, page := none, perPage := none } := by
  exact ⟨rfl, rfl⟩

/-- C8 amended: the teams data table is paginated and searchable but not
server-sortable; the findTeams query input is fully determined by the
query, page and perPage URL search params, so no sort order is part of the
query state sent to the server. -/
theorem claim8_amended_no_sort_in_query_state
    (p1 p2 : List (String × String))
    (hq : objectEntryLookup p1 "query" = objectEntryLookup p2 "query")
    (hp : objectEntryLookup p1 "page" = objectEntryLookup p2 "page")
    (hpp : objectEntryLookup p1 "perPage" = objectEntryLookup p2 "perPage") :
    teamsDataTableQueryInput p1 = teamsDataTableQueryInput p2 := by
  simp [teamsDataTableQueryInput, ZBaseTableSearchParamsSchema_parse, hq, hp,
    hpp]

/-- C8 witness: adding a sort parameter leaves the query input of an empty
parameter list unchanged. -/
theorem claim8_witness :
    teamsDataTableQueryInput [("sortDirection", "asc")]
      = teamsDataTableQueryInput [] :=
  claim8_amended_no_sort_in_query_state [("sortDirection", "asc")] []
    (by rfl) (by rfl) (by rfl)

/-- C9: with no session the layout reads the session and redirects to
/signin without ever fetching teams; with a session it fetches the teams
of exactly the session user and never redirects. -/
theorem claim9_layout_auth_gate :
    AuthenticatedTeamsDashboardLayout none
      = [LayoutEffect.fetchServerSession, LayoutEffect.redirectTo "/signin"]
    ∧ (∀ uid : Int,
        LayoutEffect.fetchTeams uid ∉ AuthenticatedTeamsDashboardLayout none)
    ∧ (∀ s : Session,
        AuthenticatedTeamsDashboardLayout (some s)
          = [LayoutEffect.fetchServerSession, LayoutEffect.fetchRequiredSession,
             LayoutEffect.fetchTeams s.user.id, LayoutEffect.renderDashboard]
        ∧ (∀ path : String,
            LayoutEffect.redirectTo path
              ∉ AuthenticatedTeamsDashboardLayout (some s))
        ∧ (∀ uid : Int,
            LayoutEffect.fetchTeams uid
              ∈ AuthenticatedTeamsDashboardLayout (some s) →
            uid = s.user.id)) := by
  refine ⟨rfl, ?_, ?_⟩
  · intro uid h
    simp [AuthenticatedTeamsDashboardLayout] at h
  · intro s
    refine ⟨rfl, ?_, ?_⟩
    · intro path h
      simp [AuthenticatedTeamsDashboardLayout] at h
    · intro uid h
      simpa [AuthenticatedTeamsDashboardLayout] using h

/-- C9 witness: the layout evaluated with no session and with a session of
user 7. -/
theorem claim9_witness :
    AuthenticatedTeamsDashboardLayout none
      = [LayoutEffect.fetchServerSession, LayoutEffect.redirectTo "/signin"]
    ∧ AuthenticatedTeamsDashboardLayout (some ⟨⟨7⟩⟩)
      = [LayoutEffect.fetchServerSession, LayoutEffect.fetchRequiredSession,
         LayoutEffect.fetchTeams 7, LayoutEffect.renderDashboard]
    ∧ (7 : Int) = 7 :=
  ⟨claim9_layout_auth_gate.1, (claim9_layout_auth_gate.2.2 ⟨⟨7⟩⟩).1,
    (claim9_layout_auth_gate.2.2 ⟨⟨7⟩⟩).2.2 7 (by decide)⟩

end Documenso
